import Mathlib

/-!
Shallow embedding of the appointment scheduling core of the
agente-contatori backend (server.js).  The source file contains several
progressively patched revisions of the same HTTP handlers; following the
specification, the latest revision of each handler is the one embedded
here: the reschedule handler with the cancelled-status capacity
filter and operator SMS, the confirm handler with the operator join and
`data_conferma` stamp, the single search handler, the
validate-appointment-date handler with its getSuggestedDates helper, and
the getOperatorPhone name-based resolution.

Modelling conventions:
* calendar dates and timestamps are days since the Unix epoch (`Nat`);
  epoch day 0 (1970-01-01) was a Thursday, so the JavaScript `getDay()`
  weekday (0 = Sunday) of day `d` is `(d + 4) % 7`;
* SQL rows are list elements; `UPDATE ... WHERE c` maps an update over
  the list at the rows satisfying `c`; `SELECT ... WHERE c` filters;
  `id = $1` with a NULL parameter matches nothing, as in SQL;
* the external SMS gateway (a black-box network sink) is modelled by a
  Boolean `gatewayOk` telling whether the HTTP call succeeds; the JS
  try/catch in sendSMSToOperator turns a failure into a `null` return,
  never an exception.  Likewise `auditOk` tells whether the best-effort
  `call_logs` INSERT succeeds; its failure is swallowed by `.catch`.
-/

/-- A row of the `pianificazioni` table (one appointment). -/
structure Appointment where
  id : Nat
  matricola : String
  nome_utente : String
  indirizzo : String
  comune : String
  data_appuntamento : Nat
  fascia_oraria : String
  telefono : String
  stato : String
  note_riprogrammazione : Option String
  data_conferma : Option Nat
  data_modifica : Option Nat
  operatore_id : Option Nat
deriving DecidableEq

/-- A row of the `operatori` table. -/
structure Operator where
  id : Nat
  nome : String
  cognome : String
  telefono : String
deriving DecidableEq

/-- A row of the `call_logs` audit table. -/
structure CallLog where
  log_matricola : Option String
  action_taken : String
  details : String
  log_timestamp : Nat
deriving DecidableEq

/-- The relational store: appointments, operators and the audit log. -/
structure Store where
  pianificazioni : List Appointment
  operatori : List Operator
  call_logs : List CallLog
deriving DecidableEq

/-! ## Date/Slot policy -/

/-- JavaScript `Date.getDay()` of an epoch-day count: 0 = Sunday. -/
def dayOfWeek (d : Nat) : Nat := (d + 4) % 7

/-- The fixed time-slot catalog returned verbatim by the handlers. -/
def timeSlots : List String :=
  ["08:00-12:00", "09:00-12:00", "13:00-17:00", "14:00-17:00", "14:00-18:00"]

/-- getSuggestedDates: the dates `today + 1 .. today + 7`, Sundays
removed, truncated to the first 5 (`suggested.slice(0, 5)`).  Only the
date value of each suggested entry is modelled; the locale-formatted
display string and the weekday name are presentation. -/
def getSuggestedDates (today : Nat) : List Nat :=
  ((((List.range 7).map (fun i => today + i + 1))).filter
    (fun d => dayOfWeek d != 0)).take 5

/-- Outcome of the /api/validate-appointment-date handler. -/
inductive ValidateResult where
  | missingDate
  | invalid (reason : String) (suggested : List Nat)
  | valid (slots : List String)
deriving DecidableEq

/-- The /api/validate-appointment-date handler: reject a missing date,
then a date not strictly after today (reason `past_date`), then a Sunday
(reason `sunday`); otherwise the date is valid and the full slot catalog
is returned. -/
def validateAppointmentDate (today : Nat) (proposed : Option Nat) : ValidateResult :=
  match proposed with
  | none => .missingDate
  | some p =>
    if p ≤ today then .invalid "past_date" (getSuggestedDates today)
    else if dayOfWeek p = 0 then .invalid "sunday" (getSuggestedDates today)
    else .valid timeSlots

/-! ## Operator phone resolution (getOperatorPhone) -/

/-- An ASCII upper-case letter mapped to lower case; every other
character kept: the effect of SQL `LOWER` / JS `toLowerCase` on the
ASCII names this system stores. -/
def lowerChar (c : Char) : Char :=
  if 'A' ≤ c ∧ c ≤ 'Z' then Char.ofNat (c.toNat + 32) else c

/-- Character-wise lower-casing of a string. -/
def lowerString (s : String) : String := String.mk (s.data.map lowerChar)

/-- JS `String.prototype.trim`: whitespace stripped from both ends. -/
def jsTrim (s : String) : String :=
  String.mk
    (((s.data.dropWhile Char.isWhitespace).reverse.dropWhile
      Char.isWhitespace).reverse)

/-- JS string split on a single space, over a character list: split at every space,
keeping empty fragments (so `"a  b"` gives `["a", "", "b"]` and `""`
gives `[""]`, as in JavaScript). -/
def splitCharsOnSpace : List Char → List String
  | [] => [""]
  | c :: rest =>
    if c = ' ' then "" :: splitCharsOnSpace rest
    else
      match splitCharsOnSpace rest with
      | [] => [String.mk [c]]
      | h :: t => String.mk (c :: h.data) :: t

/-- JS string split on a single space. -/
def jsSplitOnSpace (s : String) : List String := splitCharsOnSpace s.data

/-- The SELECT of getOperatorPhone: first operator whose lower-cased
first and last names equal the lower-cased arguments
(`WHERE LOWER(nome) = LOWER($1) AND LOWER(cognome) = LOWER($2) LIMIT 1`). -/
def lookupOperator (σ : Store) (nome cognome : String) : Option Operator :=
  (σ.operatori.filter
    (fun o => lowerString o.nome == lowerString nome
      && lowerString o.cognome == lowerString cognome)).head?

/-- getOperatorPhone: an empty name is falsy and yields null; the name is
trimmed and split on single spaces; fewer than two parts yields null
without any query; otherwise part 0 is the first name, the remaining
parts joined by spaces are the last name, and the operator table is
searched case-insensitively. -/
def getOperatorPhone (σ : Store) (operatorFullName : String) : Option String :=
  if operatorFullName = "" then none
  else
    let nameParts := jsSplitOnSpace (jsTrim operatorFullName)
    if nameParts.length < 2 then none
    else
      match lookupOperator σ (nameParts.headD "")
          (String.intercalate " " (nameParts.drop 1)) with
      | some op => some op.telefono
      | none => none

/-! ## Search (/api/search-appointment) -/

/-- The ORDER BY data_appuntamento DESC LIMIT 1 of the search query: a row of maximal
appointment date (the tie on equal dates is broken deterministically
towards the earlier row, one of the behaviours the unspecified SQL
tie-break allows). -/
def pickLatest : List Appointment → Option Appointment
  | [] => none
  | a :: rest =>
    match pickLatest rest with
    | none => some a
    | some b => if b.data_appuntamento > a.data_appuntamento then some b else some a

/-- The search SELECT: rows with the given matricola, most recent
appointment date first, limit 1. -/
def latestByMatricola (σ : Store) (m : String) : Option Appointment :=
  pickLatest (σ.pianificazioni.filter (fun a => a.matricola == m))

/-- Outcome of the /api/search-appointment handler. -/
inductive SearchResult where
  | missingMatricola
  | notFound (matricola : String)
  | found (a : Appointment)
deriving DecidableEq

/-- The /api/search-appointment handler: a missing (falsy) matricola is a
400 validation error; otherwise the most recent matching row is returned,
or a found=false outcome.  The handler runs only a SELECT, so the store
it returns is the store it was given. -/
def searchAppointment (m : String) (σ : Store) : SearchResult × Store :=
  if m = "" then (.missingMatricola, σ)
  else
    match latestByMatricola σ m with
    | none => (.notFound m, σ)
    | some a => (.found a, σ)

/-! ## Confirm and reschedule (/api/confirm-appointment, /api/reschedule-appointment) -/

/-- The WHERE id = $1 OR matricola = $2 row condition with nullable parameters: a
NULL parameter matches no row, as in SQL. -/
def reqMatches (aid : Option Nat) (m : Option String) (a : Appointment) : Bool :=
  (match aid with
   | some i => a.id == i
   | none => false)
  ||
  (match m with
   | some s => a.matricola == s
   | none => false)

/-- sendSMSToOperator: an HTTP POST to the external GatewayAPI sink.
The JS try/catch returns the parsed gateway response on success and
`null` on any transport error; it never throws to its caller.  The
black-box network outcome is the Boolean `gatewayOk`. -/
def sendSMSToOperator (gatewayOk : Bool) (operatorPhone message : String) : Option String :=
  if gatewayOk then some ("sent to " ++ operatorPhone ++ ": " ++ message) else none

/-- The `LEFT JOIN operatori o ON p.operatore_id = o.id` column
`o.telefono as operatore_telefono` of the confirm/reschedule lookup. -/
def operatorPhoneOf (σ : Store) (a : Appointment) : Option String :=
  (a.operatore_id.bind
    (fun oid => (σ.operatori.filter (fun o => o.id == oid)).head?)).map Operator.telefono

/-- The SMS side effect shared by confirm and reschedule: send only when
the joined operator phone is truthy (present and non-empty); record the
attempted call and its gateway outcome. -/
def smsAttempts (σ : Store) (a : Appointment) (gatewayOk : Bool)
    (message : String) : List (String × Option String) :=
  match operatorPhoneOf σ a with
  | some phone =>
    if phone = "" then [] else [(phone, sendSMSToOperator gatewayOk phone message)]
  | none => []

/-- The best-effort `INSERT INTO call_logs`: appended when the insert
succeeds, swallowed (`.catch`) when it fails. -/
def auditAppend (auditOk : Bool) (entry : CallLog) (σ : Store) : Store :=
  if auditOk then { σ with call_logs := σ.call_logs ++ [entry] } else σ

/-- Outcome of the /api/confirm-appointment handler; `ok` carries the
single row whose columns build the spoken success message. -/
inductive ConfirmResult where
  | notFound
  | ok (response : Appointment)
deriving DecidableEq

/-- What a confirm or reschedule handler call produces: the HTTP outcome,
the store afterwards, and the attempted external SMS calls. -/
structure HandlerOutput (ρ : Type) where
  result : ρ
  store : Store
  sms : List (String × Option String)

/-- The confirm UPDATE applied to one row:
SET stato to confermato and data_conferma to CURRENT_TIMESTAMP at the
rows matched by id or matricola. -/
def confirmUpdate (aid : Option Nat) (m : Option String) (now : Nat)
    (a : Appointment) : Appointment :=
  if reqMatches aid m a then { a with stato := "confermato", data_conferma := some now }
  else a

/-- The request body of /api/confirm-appointment. -/
structure ConfirmRequest where
  appointment_id : Option Nat
  matricola : Option String
deriving DecidableEq

/-- The /api/confirm-appointment handler (latest revision): select the
target rows (404 when none), run the confirm UPDATE on every matched
row, SMS the joined operator best-effort, append a best-effort audit
entry, and answer success with the columns of the first selected row. -/
def confirmAppointment (req : ConfirmRequest) (now : Nat)
    (gatewayOk auditOk : Bool) (σ : Store) : HandlerOutput ConfirmResult :=
  match σ.pianificazioni.filter (reqMatches req.appointment_id req.matricola) with
  | [] => ⟨.notFound, σ, []⟩
  | appointment :: _ =>
    let updatedAll :=
      σ.pianificazioni.map (confirmUpdate req.appointment_id req.matricola now)
    match updatedAll.filter (reqMatches req.appointment_id req.matricola) with
    | [] => ⟨.notFound, { σ with pianificazioni := updatedAll }, []⟩
    | _ :: _ =>
      let σ1 : Store := { σ with pianificazioni := updatedAll }
      let sms := smsAttempts σ appointment gatewayOk "APPUNTAMENTO CONFERMATO"
      let σ2 := auditAppend auditOk
        ⟨req.matricola, "conferma",
         "Appuntamento confermato telefonicamente - SMS inviato", now⟩ σ1
      ⟨.ok appointment, σ2, sms⟩

/-- The request body of /api/reschedule-appointment. -/
structure RescheduleRequest where
  appointment_id : Option Nat
  matricola : Option String
  new_date : Nat
  new_time_slot : String
  reason : Option String
deriving DecidableEq

/-- The defaulting of the reschedule reason: a missing or
falsy (empty) reason falls back to the default text. -/
def defaultReason : Option String → String
  | none => "Riprogrammato su richiesta cliente"
  | some r => if r = "" then "Riprogrammato su richiesta cliente" else r

/-- The availability COUNT of the latest reschedule revision:
rows at the requested date and slot whose stato is not `cancellato`. -/
def countAvailability (σ : Store) (d : Nat) (s : String) : Nat :=
  (σ.pianificazioni.filter
    (fun a => a.data_appuntamento == d && a.fascia_oraria == s
      && !(a.stato == "cancellato"))).length

/-- The reschedule UPDATE applied to one row:
SET data_appuntamento, fascia_oraria, stato to riprogrammato,
note_riprogrammazione and data_modifica to CURRENT_TIMESTAMP at the
rows matched by id or matricola. -/
def rescheduleUpdate (req : RescheduleRequest) (now : Nat)
    (a : Appointment) : Appointment :=
  if reqMatches req.appointment_id req.matricola a then
    { a with data_appuntamento := req.new_date,
             fascia_oraria := req.new_time_slot,
             stato := "riprogrammato",
             note_riprogrammazione := some (defaultReason req.reason),
             data_modifica := some now }
  else a

/-- Outcome of the /api/reschedule-appointment handler; the success
message echoes the requested new date and slot, and the capacity refusal
carries the two fixed alternative (date, slot) proposals. -/
inductive RescheduleResult where
  | notFound
  | capacityExceeded (alternatives : List (Nat × String))
  | ok (new_date : Nat) (new_time_slot : String)
deriving DecidableEq

/-- The /api/reschedule-appointment handler (latest revision): select
the target rows (404 when none), refuse with the two fixed alternatives
when the non-cancelled count at the requested date and slot is already
at least 5, otherwise run the reschedule UPDATE on every matched row,
SMS the joined operator best-effort, append a best-effort audit entry,
and answer success echoing the new date and slot. -/
def rescheduleAppointment (req : RescheduleRequest) (now : Nat)
    (gatewayOk auditOk : Bool) (σ : Store) : HandlerOutput RescheduleResult :=
  match σ.pianificazioni.filter (reqMatches req.appointment_id req.matricola) with
  | [] => ⟨.notFound, σ, []⟩
  | appointment :: _ =>
    if countAvailability σ req.new_date req.new_time_slot ≥ 5 then
      ⟨.capacityExceeded
        [(req.new_date, "08:00-12:00"), (req.new_date, "13:00-17:00")], σ, []⟩
    else
      let updatedAll := σ.pianificazioni.map (rescheduleUpdate req now)
      match updatedAll.filter (reqMatches req.appointment_id req.matricola) with
      | [] => ⟨.notFound, { σ with pianificazioni := updatedAll }, []⟩
      | _ :: _ =>
        let σ1 : Store := { σ with pianificazioni := updatedAll }
        let sms := smsAttempts σ appointment gatewayOk "APPUNTAMENTO MODIFICATO"
        let σ2 := auditAppend auditOk
          ⟨req.matricola, "riprogrammazione",
           "Spostato a " ++ toString req.new_date ++ " " ++ req.new_time_slot
             ++ " - SMS inviato", now⟩ σ1
        ⟨.ok req.new_date req.new_time_slot, σ2, sms⟩

/-! ## The capacity invariant -/

/-- At most 5 non-cancelled appointments share any (date, slot) pair. -/
def slotInvariant (σ : Store) : Prop :=
  ∀ d s, countAvailability σ d s ≤ 5

/-! ## Helper lemmas -/

lemma countAvailability_countP (σ : Store) (d : Nat) (s : String) :
    countAvailability σ d s = σ.pianificazioni.countP
      (fun a => a.data_appuntamento == d && a.fascia_oraria == s
        && !(a.stato == "cancellato")) :=
  (List.countP_eq_length_filter _ _).symm

lemma countP_or_le {α : Type} (p m : α → Bool) (l : List α) :
    l.countP (fun a => p a || m a) ≤ l.countP p + l.countP m := by
  induction l with
  | nil => simp
  | cons x xs ih =>
    by_cases hp : p x <;> by_cases hm : m x <;>
      simp [List.countP_cons, hp, hm] <;> omega

lemma slotInvariant_iff (σ : Store) :
    slotInvariant σ ↔ ∀ a ∈ σ.pianificazioni,
      countAvailability σ a.data_appuntamento a.fascia_oraria ≤ 5 := by
  constructor
  · intro h a _
    exact h _ _
  · intro h d s
    by_cases hz : countAvailability σ d s = 0
    · omega
    · have hne : σ.pianificazioni.filter
          (fun a => a.data_appuntamento == d && a.fascia_oraria == s
            && !(a.stato == "cancellato")) ≠ [] := by
        intro hnil
        exact hz (by simp [countAvailability, hnil])
      obtain ⟨a, ha⟩ := List.exists_mem_of_ne_nil _ hne
      have hmem := List.mem_filter.mp ha
      have hda : a.data_appuntamento = d ∧ a.fascia_oraria = s := by
        have := hmem.2
        simp only [Bool.and_eq_true, beq_iff_eq] at this
        exact ⟨this.1.1, this.1.2⟩
      have := h a hmem.1
      rw [hda.1, hda.2] at this
      exact this

lemma pickLatest_eq_none {l : List Appointment} (h : pickLatest l = none) :
    l = [] := by
  cases l with
  | nil => rfl
  | cons x xs =>
    exfalso
    simp only [pickLatest] at h
    split at h <;> [skip; split at h] <;> simp_all

lemma pickLatest_mem : ∀ {l : List Appointment} {a : Appointment},
    pickLatest l = some a → a ∈ l := by
  intro l
  induction l with
  | nil => intro a h; simp [pickLatest] at h
  | cons x xs ih =>
    intro a h
    simp only [pickLatest] at h
    split at h
    · cases h
      exact List.mem_cons_self x xs
    · rename_i b hb
      split at h
      · cases h
        exact List.mem_cons_of_mem x (ih hb)
      · cases h
        exact List.mem_cons_self x xs

lemma pickLatest_max : ∀ {l : List Appointment} {a : Appointment},
    pickLatest l = some a →
    ∀ b ∈ l, b.data_appuntamento ≤ a.data_appuntamento := by
  intro l
  induction l with
  | nil => intro a h; simp [pickLatest] at h
  | cons x xs ih =>
    intro a h b hb
    simp only [pickLatest] at h
    split at h
    · rename_i hnone
      cases h
      rcases List.mem_cons.mp hb with hbx | hbxs
      · exact hbx ▸ Nat.le_refl _
      · rw [pickLatest_eq_none hnone] at hbxs
        cases hbxs
    · rename_i c hc
      split at h
      · rename_i hgt
        cases h
        rcases List.mem_cons.mp hb with hbx | hbxs
        · exact hbx ▸ Nat.le_of_lt hgt
        · exact ih hc b hbxs
      · rename_i hle
        cases h
        rcases List.mem_cons.mp hb with hbx | hbxs
        · exact hbx ▸ Nat.le_refl _
        · exact Nat.le_trans (ih hc b hbxs) (Nat.le_of_not_lt hle)

lemma reqMatches_confirmUpdate (aid : Option Nat) (m : Option String)
    (now : Nat) (a : Appointment) :
    reqMatches aid m (confirmUpdate aid m now a) = reqMatches aid m a := by
  unfold confirmUpdate
  split <;> rfl

lemma reqMatches_rescheduleUpdate (req : RescheduleRequest) (now : Nat)
    (a : Appointment) :
    reqMatches req.appointment_id req.matricola (rescheduleUpdate req now a)
      = reqMatches req.appointment_id req.matricola a := by
  unfold rescheduleUpdate
  split <;> rfl

lemma auditAppend_pianificazioni (au : Bool) (e : CallLog) (σ : Store) :
    (auditAppend au e σ).pianificazioni = σ.pianificazioni := by
  unfold auditAppend
  split <;> rfl

lemma filter_map_ne_nil {l : List Appointment} {pc : Appointment → Bool}
    {f : Appointment → Appointment} (hpres : ∀ b, pc (f b) = pc b)
    {a : Appointment} {rest : List Appointment}
    (hf : l.filter pc = a :: rest) : (l.map f).filter pc ≠ [] := by
  have ha : a ∈ l.filter pc := by
    rw [hf]
    exact List.mem_cons_self _ _
  have hal : a ∈ l := (List.mem_filter.mp ha).1
  have hpa : pc a := (List.mem_filter.mp ha).2
  intro hnil
  rw [List.filter_eq_nil_iff] at hnil
  exact hnil (f a) (List.mem_map_of_mem f hal) (by rw [hpres]; exact hpa)

/-- A concrete appointment row with the seeded test data of the
/api/test-appointment endpoint as filler for columns the claims never
inspect. -/
def mkRow (i : Nat) (m : String) (d : Nat) (s : String) (st : String) : Appointment :=
  ⟨i, m, "Mario Rossi Test", "Via Roma 123", "Milano", d, s, "3331234567",
   st, none, none, none, none⟩

/-! ## Claim theorems -/

/-- C4: for every proposed date less than or equal to the current date,
validateAppointmentDate returns the invalid outcome with reason code
`past_date` together with at most 5 suggested dates, each strictly after
today and not a Sunday. -/
theorem validateDate_past_date (today p : Nat) (h : p ≤ today) :
    validateAppointmentDate today (some p)
        = .invalid "past_date" (getSuggestedDates today) ∧
    (getSuggestedDates today).length ≤ 5 ∧
    ∀ d ∈ getSuggestedDates today, today < d ∧ dayOfWeek d ≠ 0 := by
  refine ⟨?_, ?_, ?_⟩
  · simp [validateAppointmentDate, h]
  · exact List.length_take_le 5 _
  · intro d hd
    have hfil := List.mem_of_mem_take hd
    have hmem := List.mem_filter.mp hfil
    constructor
    · obtain ⟨i, _, hi⟩ := List.mem_map.mp hmem.1
      omega
    · simpa using hmem.2

/-- C4 witness: today = 0 with proposed date 0. -/
theorem validateDate_past_date_witness :
    validateAppointmentDate 0 (some 0)
        = .invalid "past_date" (getSuggestedDates 0) ∧
    (getSuggestedDates 0).length ≤ 5 ∧
    ∀ d ∈ getSuggestedDates 0, 0 < d ∧ dayOfWeek d ≠ 0 :=
  validateDate_past_date 0 0 (Nat.le_refl 0)

/-- C5: for every proposed date strictly after today that is not a
Sunday, validateAppointmentDate returns the valid outcome, and the slot
catalog is exactly the 5 fixed strings in their fixed order. -/
theorem validateDate_valid_future (today p : Nat) (h1 : today < p)
    (h2 : dayOfWeek p ≠ 0) :
    validateAppointmentDate today (some p) = .valid timeSlots ∧
    timeSlots = ["08:00-12:00", "09:00-12:00", "13:00-17:00",
                 "14:00-17:00", "14:00-18:00"] := by
  have hle : ¬ p ≤ today := Nat.not_le.mpr h1
  exact ⟨by simp [validateAppointmentDate, hle, h2], rfl⟩

/-- C5 witness: today = 0 (a Thursday) with proposed date 1 (a Friday). -/
theorem validateDate_valid_future_witness :
    validateAppointmentDate 0 (some 1) = .valid timeSlots ∧
    timeSlots = ["08:00-12:00", "09:00-12:00", "13:00-17:00",
                 "14:00-17:00", "14:00-18:00"] :=
  validateDate_valid_future 0 1 (Nat.lt_irrefl 0 |> fun _ => Nat.zero_lt_one)
    (by decide)

/-- C9: getOperatorPhone of a display name with fewer than two
space-separated parts after trimming is null for every store, performing
no lookup; with two or more parts it is exactly the case-insensitive
operator lookup of the first part as first name and of the remaining
parts joined by spaces as last name. -/
theorem getOperatorPhone_spec (σ : Store) (name : String) :
    getOperatorPhone σ name =
      if (jsSplitOnSpace (jsTrim name)).length < 2 then none
      else (lookupOperator σ ((jsSplitOnSpace (jsTrim name)).headD "")
        (String.intercalate " " ((jsSplitOnSpace (jsTrim name)).drop 1))).map
          Operator.telefono := by
  unfold getOperatorPhone
  by_cases hname : name = ""
  · subst hname
    have hlen : ((jsSplitOnSpace (jsTrim "")).length < 2) := by decide
    simp [hlen]
  · rw [if_neg hname]
    by_cases hlen : (jsSplitOnSpace (jsTrim name)).length < 2
    · simp [hlen]
    · simp only [hlen, if_false]
      cases hop : lookupOperator σ ((jsSplitOnSpace (jsTrim name)).headD "")
          (String.intercalate " " ((jsSplitOnSpace (jsTrim name)).drop 1)) <;>
        simp [hop]

/-- C3: for every non-empty matricola matching at least one stored
appointment, searchAppointment returns exactly one appointment, of that
matricola, and no stored appointment with that matricola has a more
recent scheduled date; the store is returned unchanged (the handler runs
only a SELECT). -/
theorem search_returns_latest (σ : Store) (m : String) (hm : m ≠ "")
    (hex : ∃ a ∈ σ.pianificazioni, a.matricola = m) :
    (∃ a, (searchAppointment m σ).1 = .found a ∧ a ∈ σ.pianificazioni ∧
      a.matricola = m ∧
      ∀ b ∈ σ.pianificazioni, b.matricola = m →
        b.data_appuntamento ≤ a.data_appuntamento) ∧
    (searchAppointment m σ).2 = σ := by
  obtain ⟨a0, ha0, hm0⟩ := hex
  have hmem : a0 ∈ σ.pianificazioni.filter (fun a => a.matricola == m) :=
    List.mem_filter.mpr ⟨ha0, by simp [hm0]⟩
  cases hp : latestByMatricola σ m with
  | none =>
    rw [latestByMatricola] at hp
    rw [pickLatest_eq_none hp] at hmem
    cases hmem
  | some a =>
    have hp' : pickLatest (σ.pianificazioni.filter (fun a => a.matricola == m))
        = some a := hp
    have hfa := pickLatest_mem hp'
    have hfmem := List.mem_filter.mp hfa
    refine ⟨⟨a, ?_, hfmem.1, by simpa using hfmem.2, ?_⟩, ?_⟩
    · simp [searchAppointment, hm, hp]
    · intro b hb hbm
      exact pickLatest_max hp b (List.mem_filter.mpr ⟨hb, by simp [hbm]⟩)
    · simp [searchAppointment, hm, hp]

/-- C3 witness: two appointments share the matricola TEST123456; the
search outcome is the later one and the store is untouched. -/
theorem search_returns_latest_witness :
    (("TEST123456" : String) ≠ "") ∧
    ((∃ a, (searchAppointment "TEST123456"
        ⟨[mkRow 1 "TEST123456" 5 "09:00-12:00" "programmato",
          mkRow 2 "TEST123456" 9 "08:00-12:00" "programmato"], [], []⟩).1
          = .found a ∧
      a ∈ [mkRow 1 "TEST123456" 5 "09:00-12:00" "programmato",
           mkRow 2 "TEST123456" 9 "08:00-12:00" "programmato"] ∧
      a.matricola = "TEST123456" ∧
      ∀ b ∈ [mkRow 1 "TEST123456" 5 "09:00-12:00" "programmato",
             mkRow 2 "TEST123456" 9 "08:00-12:00" "programmato"],
        b.matricola = "TEST123456" →
          b.data_appuntamento ≤ a.data_appuntamento) ∧
    (searchAppointment "TEST123456"
        ⟨[mkRow 1 "TEST123456" 5 "09:00-12:00" "programmato",
          mkRow 2 "TEST123456" 9 "08:00-12:00" "programmato"], [], []⟩).2
      = ⟨[mkRow 1 "TEST123456" 5 "09:00-12:00" "programmato",
          mkRow 2 "TEST123456" 9 "08:00-12:00" "programmato"], [], []⟩) :=
  ⟨by decide,
   search_returns_latest
    ⟨[mkRow 1 "TEST123456" 5 "09:00-12:00" "programmato",
      mkRow 2 "TEST123456" 9 "08:00-12:00" "programmato"], [], []⟩
    "TEST123456" (by decide) (by decide)⟩

/-- C2: when exactly 5 non-cancelled appointments already sit at the
requested date and slot and the request resolves a target appointment,
reschedule answers the capacity refusal whose alternatives are exactly
the two fixed slots 08:00-12:00 and 13:00-17:00 on the requested date,
and the store (hence the target appointment) is unchanged. -/
theorem reschedule_capacity_refusal (σ : Store) (req : RescheduleRequest)
    (now : Nat) (g au : Bool)
    (hmatch : ∃ a ∈ σ.pianificazioni,
      reqMatches req.appointment_id req.matricola a)
    (hcount : countAvailability σ req.new_date req.new_time_slot = 5) :
    (rescheduleAppointment req now g au σ).result =
      .capacityExceeded
        [(req.new_date, "08:00-12:00"), (req.new_date, "13:00-17:00")] ∧
    (rescheduleAppointment req now g au σ).store = σ := by
  obtain ⟨a0, ha0, hp0⟩ := hmatch
  have hmem : a0 ∈ σ.pianificazioni.filter
      (reqMatches req.appointment_id req.matricola) :=
    List.mem_filter.mpr ⟨ha0, hp0⟩
  cases hf : σ.pianificazioni.filter (reqMatches req.appointment_id req.matricola) with
  | nil =>
    rw [hf] at hmem
    cases hmem
  | cons a rest =>
    constructor <;> simp [rescheduleAppointment, hf, hcount]

lemma confirmAppointment_cons (req : ConfirmRequest) (now : Nat) (g au : Bool)
    (σ : Store) {a : Appointment} {rest : List Appointment}
    (hf : σ.pianificazioni.filter (reqMatches req.appointment_id req.matricola)
      = a :: rest) :
    (confirmAppointment req now g au σ).result = .ok a ∧
    (confirmAppointment req now g au σ).store.pianificazioni
      = σ.pianificazioni.map
          (confirmUpdate req.appointment_id req.matricola now) := by
  have hne2 := filter_map_ne_nil
    (fun b => reqMatches_confirmUpdate req.appointment_id req.matricola now b) hf
  cases hf2 : (σ.pianificazioni.map
      (confirmUpdate req.appointment_id req.matricola now)).filter
        (reqMatches req.appointment_id req.matricola) with
  | nil => exact absurd hf2 hne2
  | cons a2 r2 =>
    constructor <;> simp [confirmAppointment, hf, hf2, auditAppend_pianificazioni]

lemma rescheduleAppointment_cons (req : RescheduleRequest) (now : Nat)
    (g au : Bool) (σ : Store) {a : Appointment} {rest : List Appointment}
    (hf : σ.pianificazioni.filter (reqMatches req.appointment_id req.matricola)
      = a :: rest)
    (hcap : countAvailability σ req.new_date req.new_time_slot < 5) :
    (rescheduleAppointment req now g au σ).result
      = .ok req.new_date req.new_time_slot ∧
    (rescheduleAppointment req now g au σ).store.pianificazioni
      = σ.pianificazioni.map (rescheduleUpdate req now) := by
  have hnotge : ¬ (countAvailability σ req.new_date req.new_time_slot ≥ 5) := by
    omega
  have hne2 := filter_map_ne_nil (fun b => reqMatches_rescheduleUpdate req now b) hf
  cases hf2 : (σ.pianificazioni.map (rescheduleUpdate req now)).filter
      (reqMatches req.appointment_id req.matricola) with
  | nil => exact absurd hf2 hne2
  | cons a2 r2 =>
    constructor <;>
      simp [rescheduleAppointment, hf, hnotge, hf2, auditAppend_pianificazioni]

/-- C6: a reschedule that resolves a target and passes the capacity
check stores, at every matched appointment, the requested new date, the
requested new slot, status riprogrammato and the supplied reason, the
default text standing in for a missing (or falsy empty) reason. -/
theorem reschedule_success_updates (σ : Store) (req : RescheduleRequest)
    (now : Nat) (g au : Bool)
    (hmatch : ∃ a ∈ σ.pianificazioni,
      reqMatches req.appointment_id req.matricola a)
    (hcap : countAvailability σ req.new_date req.new_time_slot < 5) :
    (rescheduleAppointment req now g au σ).result
        = .ok req.new_date req.new_time_slot ∧
    (∀ a ∈ (rescheduleAppointment req now g au σ).store.pianificazioni,
      reqMatches req.appointment_id req.matricola a →
        a.data_appuntamento = req.new_date ∧
        a.fascia_oraria = req.new_time_slot ∧
        a.stato = "riprogrammato" ∧
        a.note_riprogrammazione = some (defaultReason req.reason)) ∧
    defaultReason none = "Riprogrammato su richiesta cliente" ∧
    ∀ r : String, r ≠ "" → defaultReason (some r) = r := by
  obtain ⟨a0, ha0, hp0⟩ := hmatch
  have hmem : a0 ∈ σ.pianificazioni.filter
      (reqMatches req.appointment_id req.matricola) :=
    List.mem_filter.mpr ⟨ha0, hp0⟩
  cases hf : σ.pianificazioni.filter
      (reqMatches req.appointment_id req.matricola) with
  | nil =>
    rw [hf] at hmem
    cases hmem
  | cons a rest =>
    obtain ⟨hres, hstore⟩ := rescheduleAppointment_cons req now g au σ hf hcap
    refine ⟨hres, ?_, rfl, ?_⟩
    · intro b hb hpb
      rw [hstore] at hb
      rcases List.mem_map.mp hb with ⟨c, hc, rfl⟩
      by_cases hpc : reqMatches req.appointment_id req.matricola c = true
      · simp [rescheduleUpdate, hpc]
      · rw [reqMatches_rescheduleUpdate] at hpb
        exact absurd hpb hpc
    · intro r hr
      simp [defaultReason, hr]

/-- C6 witness: a single appointment rescheduled to day 12, slot
13:00-17:00, with an explicit reason. -/
theorem reschedule_success_updates_witness :
    (rescheduleAppointment
        ⟨some 1, none, 12, "13:00-17:00", some "Cliente assente"⟩ 3 true true
        ⟨[mkRow 1 "TEST123456" 8 "09:00-12:00" "programmato"], [], []⟩).result
      = .ok 12 "13:00-17:00" ∧
    (∀ a ∈ (rescheduleAppointment
        ⟨some 1, none, 12, "13:00-17:00", some "Cliente assente"⟩ 3 true true
        ⟨[mkRow 1 "TEST123456" 8 "09:00-12:00" "programmato"], [],
         []⟩).store.pianificazioni,
      reqMatches (some 1) none a →
        a.data_appuntamento = 12 ∧
        a.fascia_oraria = "13:00-17:00" ∧
        a.stato = "riprogrammato" ∧
        a.note_riprogrammazione = some (defaultReason (some "Cliente assente"))) ∧
    defaultReason none = "Riprogrammato su richiesta cliente" ∧
    ∀ r : String, r ≠ "" → defaultReason (some r) = r :=
  reschedule_success_updates
    ⟨[mkRow 1 "TEST123456" 8 "09:00-12:00" "programmato"], [], []⟩
    ⟨some 1, none, 12, "13:00-17:00", some "Cliente assente"⟩ 3 true true
    (by decide) (by decide)

/-- C7: confirming an appointment whose status is already confermato
succeeds again, re-applying status confermato: confirmation is
idempotent on the status field. -/
theorem confirm_idempotent_status (σ : Store) (req : ConfirmRequest)
    (now : Nat) (g au : Bool)
    (hmatch : ∃ a ∈ σ.pianificazioni,
      reqMatches req.appointment_id req.matricola a ∧ a.stato = "confermato") :
    (∃ r, (confirmAppointment req now g au σ).result = .ok r) ∧
    ∀ a ∈ (confirmAppointment req now g au σ).store.pianificazioni,
      reqMatches req.appointment_id req.matricola a →
        a.stato = "confermato" := by
  obtain ⟨a0, ha0, hp0, _⟩ := hmatch
  have hmem : a0 ∈ σ.pianificazioni.filter
      (reqMatches req.appointment_id req.matricola) :=
    List.mem_filter.mpr ⟨ha0, hp0⟩
  cases hf : σ.pianificazioni.filter
      (reqMatches req.appointment_id req.matricola) with
  | nil =>
    rw [hf] at hmem
    cases hmem
  | cons a rest =>
    obtain ⟨hres, hstore⟩ := confirmAppointment_cons req now g au σ hf
    refine ⟨⟨a, hres⟩, ?_⟩
    intro b hb hpb
    rw [hstore] at hb
    rcases List.mem_map.mp hb with ⟨c, hc, rfl⟩
    by_cases hpc : reqMatches req.appointment_id req.matricola c = true
    · simp [confirmUpdate, hpc]
    · rw [reqMatches_confirmUpdate] at hpb
      exact absurd hpb hpc

/-- C7 witness: re-confirming an appointment already in status
confermato. -/
theorem confirm_idempotent_status_witness :
    (∃ r, (confirmAppointment ⟨none, some "TEST123456"⟩ 4 true true
        ⟨[mkRow 1 "TEST123456" 8 "09:00-12:00" "confermato"], [], []⟩).result
      = .ok r) ∧
    ∀ a ∈ (confirmAppointment ⟨none, some "TEST123456"⟩ 4 true true
        ⟨[mkRow 1 "TEST123456" 8 "09:00-12:00" "confermato"], [],
         []⟩).store.pianificazioni,
      reqMatches none (some "TEST123456") a → a.stato = "confermato" :=
  confirm_idempotent_status
    ⟨[mkRow 1 "TEST123456" 8 "09:00-12:00" "confermato"], [], []⟩
    ⟨none, some "TEST123456"⟩ 4 true true (by decide)

/-- C2 witness: 5 scheduled appointments already at day 10, slot
09:00-12:00; rescheduling the sixth appointment to that slot is refused
with the two fixed alternatives and the store is unchanged. -/
theorem reschedule_capacity_refusal_witness :
    (rescheduleAppointment ⟨some 6, some "TEST123456", 10, "09:00-12:00", none⟩
        7 true true
        ⟨[mkRow 1 "A1" 10 "09:00-12:00" "programmato",
          mkRow 2 "A2" 10 "09:00-12:00" "programmato",
          mkRow 3 "A3" 10 "09:00-12:00" "confermato",
          mkRow 4 "A4" 10 "09:00-12:00" "programmato",
          mkRow 5 "A5" 10 "09:00-12:00" "riprogrammato",
          mkRow 6 "TEST123456" 8 "08:00-12:00" "programmato"], [], []⟩).result
      = .capacityExceeded [(10, "08:00-12:00"), (10, "13:00-17:00")] ∧
    (rescheduleAppointment ⟨some 6, some "TEST123456", 10, "09:00-12:00", none⟩
        7 true true
        ⟨[mkRow 1 "A1" 10 "09:00-12:00" "programmato",
          mkRow 2 "A2" 10 "09:00-12:00" "programmato",
          mkRow 3 "A3" 10 "09:00-12:00" "confermato",
          mkRow 4 "A4" 10 "09:00-12:00" "programmato",
          mkRow 5 "A5" 10 "09:00-12:00" "riprogrammato",
          mkRow 6 "TEST123456" 8 "08:00-12:00" "programmato"], [], []⟩).store
      = ⟨[mkRow 1 "A1" 10 "09:00-12:00" "programmato",
          mkRow 2 "A2" 10 "09:00-12:00" "programmato",
          mkRow 3 "A3" 10 "09:00-12:00" "confermato",
          mkRow 4 "A4" 10 "09:00-12:00" "programmato",
          mkRow 5 "A5" 10 "09:00-12:00" "riprogrammato",
          mkRow 6 "TEST123456" 8 "08:00-12:00" "programmato"], [], []⟩ :=
  reschedule_capacity_refusal
    ⟨[mkRow 1 "A1" 10 "09:00-12:00" "programmato",
      mkRow 2 "A2" 10 "09:00-12:00" "programmato",
      mkRow 3 "A3" 10 "09:00-12:00" "confermato",
      mkRow 4 "A4" 10 "09:00-12:00" "programmato",
      mkRow 5 "A5" 10 "09:00-12:00" "riprogrammato",
      mkRow 6 "TEST123456" 8 "08:00-12:00" "programmato"], [], []⟩
    ⟨some 6, some "TEST123456", 10, "09:00-12:00", none⟩ 7 true true
    (by decide) (by decide)

/-- C8: once the primary UPDATE of a confirm or reschedule has gone
through, failure of the operator SMS call or of the audit-log INSERT
changes neither the reported outcome nor the appointment table: the
response is the same success outcome produced when both side channels
work, and no side-channel error propagates. -/
theorem side_channel_failures_harmless (σ : Store) (creq : ConfirmRequest)
    (rreq : RescheduleRequest) (now : Nat)
    (hc : ∃ a ∈ σ.pianificazioni,
      reqMatches creq.appointment_id creq.matricola a)
    (hr : ∃ a ∈ σ.pianificazioni,
      reqMatches rreq.appointment_id rreq.matricola a)
    (hrcap : countAvailability σ rreq.new_date rreq.new_time_slot < 5) :
    ∀ g au : Bool,
      ((confirmAppointment creq now g au σ).result
          = (confirmAppointment creq now true true σ).result ∧
       (confirmAppointment creq now g au σ).store.pianificazioni
          = (confirmAppointment creq now true true σ).store.pianificazioni ∧
       ∃ r, (confirmAppointment creq now g au σ).result = .ok r) ∧
      ((rescheduleAppointment rreq now g au σ).result
          = (rescheduleAppointment rreq now true true σ).result ∧
       (rescheduleAppointment rreq now g au σ).store.pianificazioni
          = (rescheduleAppointment rreq now true true σ).store.pianificazioni ∧
       (rescheduleAppointment rreq now g au σ).result
          = .ok rreq.new_date rreq.new_time_slot) := by
  intro g au
  obtain ⟨a0, ha0, hp0⟩ := hc
  obtain ⟨b0, hb0, hq0⟩ := hr
  have hmemc : a0 ∈ σ.pianificazioni.filter
      (reqMatches creq.appointment_id creq.matricola) :=
    List.mem_filter.mpr ⟨ha0, hp0⟩
  have hmemr : b0 ∈ σ.pianificazioni.filter
      (reqMatches rreq.appointment_id rreq.matricola) :=
    List.mem_filter.mpr ⟨hb0, hq0⟩
  constructor
  · cases hf : σ.pianificazioni.filter
        (reqMatches creq.appointment_id creq.matricola) with
    | nil =>
      rw [hf] at hmemc
      cases hmemc
    | cons a rest =>
      obtain ⟨hres1, hst1⟩ := confirmAppointment_cons creq now g au σ hf
      obtain ⟨hres2, hst2⟩ := confirmAppointment_cons creq now true true σ hf
      exact ⟨hres1.trans hres2.symm, hst1.trans hst2.symm, a, hres1⟩
  · cases hf : σ.pianificazioni.filter
        (reqMatches rreq.appointment_id rreq.matricola) with
    | nil =>
      rw [hf] at hmemr
      cases hmemr
    | cons a rest =>
      obtain ⟨hres1, hst1⟩ := rescheduleAppointment_cons rreq now g au σ hf hrcap
      obtain ⟨hres2, hst2⟩ := rescheduleAppointment_cons rreq now true true σ hf hrcap
      exact ⟨hres1.trans hres2.symm, hst1.trans hst2.symm, hres1⟩

/-- C8 witness: one appointment, confirmed and rescheduled with both the
SMS gateway and the audit insert failing. -/
theorem side_channel_failures_harmless_witness :
    ((confirmAppointment ⟨some 1, none⟩ 9 false false
        ⟨[mkRow 1 "TEST123456" 8 "09:00-12:00" "programmato"], [], []⟩).result
        = (confirmAppointment ⟨some 1, none⟩ 9 true true
        ⟨[mkRow 1 "TEST123456" 8 "09:00-12:00" "programmato"], [], []⟩).result ∧
     (confirmAppointment ⟨some 1, none⟩ 9 false false
        ⟨[mkRow 1 "TEST123456" 8 "09:00-12:00" "programmato"], [],
         []⟩).store.pianificazioni
        = (confirmAppointment ⟨some 1, none⟩ 9 true true
        ⟨[mkRow 1 "TEST123456" 8 "09:00-12:00" "programmato"], [],
         []⟩).store.pianificazioni ∧
     ∃ r, (confirmAppointment ⟨some 1, none⟩ 9 false false
        ⟨[mkRow 1 "TEST123456" 8 "09:00-12:00" "programmato"], [], []⟩).result
        = .ok r) ∧
    ((rescheduleAppointment ⟨some 1, none, 12, "13:00-17:00", none⟩ 9
        false false
        ⟨[mkRow 1 "TEST123456" 8 "09:00-12:00" "programmato"], [], []⟩).result
        = (rescheduleAppointment ⟨some 1, none, 12, "13:00-17:00", none⟩ 9
          true true
        ⟨[mkRow 1 "TEST123456" 8 "09:00-12:00" "programmato"], [], []⟩).result ∧
     (rescheduleAppointment ⟨some 1, none, 12, "13:00-17:00", none⟩ 9
        false false
        ⟨[mkRow 1 "TEST123456" 8 "09:00-12:00" "programmato"], [],
         []⟩).store.pianificazioni
        = (rescheduleAppointment ⟨some 1, none, 12, "13:00-17:00", none⟩ 9
          true true
        ⟨[mkRow 1 "TEST123456" 8 "09:00-12:00" "programmato"], [],
         []⟩).store.pianificazioni ∧
     (rescheduleAppointment ⟨some 1, none, 12, "13:00-17:00", none⟩ 9
        false false
        ⟨[mkRow 1 "TEST123456" 8 "09:00-12:00" "programmato"], [], []⟩).result
        = .ok 12 "13:00-17:00") :=
  side_channel_failures_harmless
    ⟨[mkRow 1 "TEST123456" 8 "09:00-12:00" "programmato"], [], []⟩
    ⟨some 1, none⟩ ⟨some 1, none, 12, "13:00-17:00", none⟩ 9
    (by decide) (by decide) (by decide) false false

lemma reqMatches_some_iff (aid : Nat) (m : String) (a : Appointment) :
    reqMatches (some aid) (some m) a = true ↔ (a.id = aid ∨ a.matricola = m) := by
  simp [reqMatches]

/-- C10 counterexample: the claim asserts that the reschedule success
response too is built from one arbitrarily selected updated row, but the
latest reschedule revision builds it from the request body alone: the
same request applied to two stores whose matched rows agree on no key
field (different id, matricola, date and slot) updates different rows
yet produces identical success responses, namely the echo of the
requested new date and slot, so the response carries no updated-row
data. -/
theorem reschedule_response_ignores_updated_rows :
    (rescheduleAppointment ⟨some 1, some "M1", 20, "08:00-12:00", none⟩ 0
        true true
        ⟨[mkRow 1 "AAA" 5 "09:00-12:00" "programmato"], [], []⟩).result
      = (rescheduleAppointment ⟨some 1, some "M1", 20, "08:00-12:00", none⟩ 0
        true true
        ⟨[mkRow 2 "M1" 9 "13:00-17:00" "confermato"], [], []⟩).result ∧
    (rescheduleAppointment ⟨some 1, some "M1", 20, "08:00-12:00", none⟩ 0
        true true
        ⟨[mkRow 1 "AAA" 5 "09:00-12:00" "programmato"], [],
         []⟩).store.pianificazioni
      ≠ (rescheduleAppointment ⟨some 1, some "M1", 20, "08:00-12:00", none⟩ 0
        true true
        ⟨[mkRow 2 "M1" 9 "13:00-17:00" "confermato"], [],
         []⟩).store.pianificazioni ∧
    (rescheduleAppointment ⟨some 1, some "M1", 20, "08:00-12:00", none⟩ 0
        true true
        ⟨[mkRow 1 "AAA" 5 "09:00-12:00" "programmato"], [], []⟩).result
      = .ok 20 "08:00-12:00" :=
  ⟨by decide, by decide, by decide⟩

/-- C10 (amended): with both an appointment id and a matricola supplied,
the confirm and reschedule UPDATE statements each mutate every stored
appointment whose id equals the given id or whose matricola equals the
given matricola, several rows when the matricola recurs, while the
success response carries the data of at most one row: confirm answers
with the single arbitrarily selected row the handler read back, and
reschedule answers by echoing the new date and slot of the request
rather than any updated row. -/
theorem or_match_update_mutates_every_match (σ : Store) (aid : Nat)
    (m : String) (nd : Nat) (ns : String) (rsn : Option String) (now : Nat)
    (g au : Bool)
    (hmatch : ∃ a ∈ σ.pianificazioni, a.id = aid ∨ a.matricola = m)
    (hcap : countAvailability σ nd ns < 5) :
    ((∃ r, (confirmAppointment ⟨some aid, some m⟩ now g au σ).result = .ok r ∧
      r ∈ σ.pianificazioni ∧ (r.id = aid ∨ r.matricola = m)) ∧
     ∀ a ∈ (confirmAppointment ⟨some aid, some m⟩ now g au
         σ).store.pianificazioni,
       (a.id = aid ∨ a.matricola = m) →
         a.stato = "confermato" ∧ a.data_conferma = some now) ∧
    ((rescheduleAppointment ⟨some aid, some m, nd, ns, rsn⟩ now g au σ).result
        = .ok nd ns ∧
     ∀ a ∈ (rescheduleAppointment ⟨some aid, some m, nd, ns, rsn⟩ now g au
         σ).store.pianificazioni,
       (a.id = aid ∨ a.matricola = m) →
         a.data_appuntamento = nd ∧ a.fascia_oraria = ns ∧
         a.stato = "riprogrammato") := by
  obtain ⟨a0, ha0, hp0⟩ := hmatch
  have hmem : a0 ∈ σ.pianificazioni.filter (reqMatches (some aid) (some m)) :=
    List.mem_filter.mpr ⟨ha0, (reqMatches_some_iff aid m a0).mpr hp0⟩
  cases hf : σ.pianificazioni.filter (reqMatches (some aid) (some m)) with
  | nil =>
    rw [hf] at hmem
    cases hmem
  | cons a rest =>
    constructor
    · obtain ⟨hres, hstore⟩ :=
        confirmAppointment_cons ⟨some aid, some m⟩ now g au σ hf
      have hafil : a ∈ σ.pianificazioni.filter (reqMatches (some aid) (some m)) := by
        rw [hf]
        exact List.mem_cons_self _ _
      refine ⟨⟨a, hres, (List.mem_filter.mp hafil).1,
        (reqMatches_some_iff aid m a).mp (List.mem_filter.mp hafil).2⟩, ?_⟩
      intro b hb hpb
      rw [hstore] at hb
      rcases List.mem_map.mp hb with ⟨c, hc, rfl⟩
      by_cases hpc : reqMatches (some aid) (some m) c = true
      · simp [confirmUpdate, hpc]
      · have hup : reqMatches (some aid) (some m)
            (confirmUpdate (some aid) (some m) now c) = true :=
          (reqMatches_some_iff aid m _).mpr hpb
        rw [reqMatches_confirmUpdate] at hup
        exact absurd hup hpc
    · obtain ⟨hres, hstore⟩ :=
        rescheduleAppointment_cons ⟨some aid, some m, nd, ns, rsn⟩ now g au σ
          hf hcap
      refine ⟨hres, ?_⟩
      intro b hb hpb
      rw [hstore] at hb
      rcases List.mem_map.mp hb with ⟨c, hc, rfl⟩
      by_cases hpc : reqMatches (some aid) (some m) c = true
      · simp [rescheduleUpdate, hpc]
      · have hup : reqMatches (some aid) (some m)
            (rescheduleUpdate ⟨some aid, some m, nd, ns, rsn⟩ now c) = true :=
          (reqMatches_some_iff aid m _).mpr hpb
        rw [reqMatches_rescheduleUpdate ⟨some aid, some m, nd, ns, rsn⟩ now c]
          at hup
        exact absurd hup hpc

/-- C10 (amended) witness: two distinct rows share matricola DUP999; a
request carrying id 1 and matricola DUP999 confirms both rows, and the
same OR-match rescheduled to day 20, slot 08:00-12:00 moves both rows
there. -/
theorem or_match_update_mutates_every_match_witness :
    ((∃ r, (confirmAppointment ⟨some 1, some "DUP999"⟩ 6 true true
        ⟨[mkRow 1 "DUP999" 8 "09:00-12:00" "programmato",
          mkRow 2 "DUP999" 11 "13:00-17:00" "programmato"], [], []⟩).result
      = .ok r ∧
      r ∈ [mkRow 1 "DUP999" 8 "09:00-12:00" "programmato",
           mkRow 2 "DUP999" 11 "13:00-17:00" "programmato"] ∧
      (r.id = 1 ∨ r.matricola = "DUP999")) ∧
     ∀ a ∈ (confirmAppointment ⟨some 1, some "DUP999"⟩ 6 true true
        ⟨[mkRow 1 "DUP999" 8 "09:00-12:00" "programmato",
          mkRow 2 "DUP999" 11 "13:00-17:00" "programmato"], [],
         []⟩).store.pianificazioni,
      (a.id = 1 ∨ a.matricola = "DUP999") →
        a.stato = "confermato" ∧ a.data_conferma = some 6) ∧
    ((rescheduleAppointment ⟨some 1, some "DUP999", 20, "08:00-12:00", none⟩
        6 true true
        ⟨[mkRow 1 "DUP999" 8 "09:00-12:00" "programmato",
          mkRow 2 "DUP999" 11 "13:00-17:00" "programmato"], [], []⟩).result
      = .ok 20 "08:00-12:00" ∧
     ∀ a ∈ (rescheduleAppointment ⟨some 1, some "DUP999", 20, "08:00-12:00",
          none⟩ 6 true true
        ⟨[mkRow 1 "DUP999" 8 "09:00-12:00" "programmato",
          mkRow 2 "DUP999" 11 "13:00-17:00" "programmato"], [],
         []⟩).store.pianificazioni,
      (a.id = 1 ∨ a.matricola = "DUP999") →
        a.data_appuntamento = 20 ∧ a.fascia_oraria = "08:00-12:00" ∧
        a.stato = "riprogrammato") :=
  or_match_update_mutates_every_match
    ⟨[mkRow 1 "DUP999" 8 "09:00-12:00" "programmato",
      mkRow 2 "DUP999" 11 "13:00-17:00" "programmato"], [], []⟩
    1 "DUP999" 20 "08:00-12:00" none 6 true true (by decide) (by decide)

/-- C1 counterexample: a store satisfying the capacity invariant — five
non-cancelled appointments and one cancelled appointment at day 10, slot
08:00-12:00 — on which confirming the cancelled appointment (id 6) makes
six non-cancelled appointments share that (date, slot) pair: the confirm
operation does not preserve the bound. -/
theorem capacity_not_preserved_counterexample :
    slotInvariant
      ⟨[mkRow 1 "A1" 10 "08:00-12:00" "programmato",
        mkRow 2 "A2" 10 "08:00-12:00" "programmato",
        mkRow 3 "A3" 10 "08:00-12:00" "confermato",
        mkRow 4 "A4" 10 "08:00-12:00" "programmato",
        mkRow 5 "A5" 10 "08:00-12:00" "riprogrammato",
        mkRow 6 "A6" 10 "08:00-12:00" "cancellato"], [], []⟩ ∧
    ¬ slotInvariant (confirmAppointment ⟨some 6, none⟩ 0 true true
      ⟨[mkRow 1 "A1" 10 "08:00-12:00" "programmato",
        mkRow 2 "A2" 10 "08:00-12:00" "programmato",
        mkRow 3 "A3" 10 "08:00-12:00" "confermato",
        mkRow 4 "A4" 10 "08:00-12:00" "programmato",
        mkRow 5 "A5" 10 "08:00-12:00" "riprogrammato",
        mkRow 6 "A6" 10 "08:00-12:00" "cancellato"], [], []⟩).store := by
  constructor
  · exact (slotInvariant_iff _).mpr (by decide)
  · intro h
    exact absurd (h 10 "08:00-12:00") (by decide)

/-- C1 (amended): the 5-appointment bound per (date, slot) is preserved
by confirm provided no matched appointment is cancelled, and by
reschedule provided the request matches at most one stored row; the
unrestricted claim fails because confirm can resurrect a cancelled
appointment inside a full slot and a reschedule whose matricola matches
several rows can move them all into a slot with fewer than 5 free
places. -/
theorem capacity_invariant_preserved_amended (σ : Store) (now : Nat)
    (g au : Bool) (creq : ConfirmRequest) (rreq : RescheduleRequest)
    (hinv : slotInvariant σ)
    (hc : ∀ a ∈ σ.pianificazioni,
      reqMatches creq.appointment_id creq.matricola a = true →
        a.stato ≠ "cancellato")
    (hr : σ.pianificazioni.countP
      (reqMatches rreq.appointment_id rreq.matricola) ≤ 1) :
    slotInvariant (confirmAppointment creq now g au σ).store ∧
    slotInvariant (rescheduleAppointment rreq now g au σ).store := by
  constructor
  · cases hf : σ.pianificazioni.filter
        (reqMatches creq.appointment_id creq.matricola) with
    | nil =>
      have hst : (confirmAppointment creq now g au σ).store = σ := by
        simp [confirmAppointment, hf]
      rw [hst]
      exact hinv
    | cons a rest =>
      obtain ⟨_, hstore⟩ := confirmAppointment_cons creq now g au σ hf
      intro d s
      rw [countAvailability_countP, hstore, List.countP_map]
      have hcong : ∀ x ∈ σ.pianificazioni,
          ((fun a => a.data_appuntamento == d && a.fascia_oraria == s
            && !(a.stato == "cancellato")) ∘
            confirmUpdate creq.appointment_id creq.matricola now) x
          ↔ (x.data_appuntamento == d && x.fascia_oraria == s
            && !(x.stato == "cancellato")) := by
        intro x hx
        by_cases hm : reqMatches creq.appointment_id creq.matricola x = true
        · have hnc : (x.stato == "cancellato") = false := by
            simpa using hc x hx hm
          simp [confirmUpdate, hm, hnc]
        · simp [confirmUpdate, hm]
      rw [List.countP_congr hcong, ← countAvailability_countP]
      exact hinv d s
  · cases hf : σ.pianificazioni.filter
        (reqMatches rreq.appointment_id rreq.matricola) with
    | nil =>
      have hst : (rescheduleAppointment rreq now g au σ).store = σ := by
        simp [rescheduleAppointment, hf]
      rw [hst]
      exact hinv
    | cons a rest =>
      by_cases hge : countAvailability σ rreq.new_date rreq.new_time_slot ≥ 5
      · have hst : (rescheduleAppointment rreq now g au σ).store = σ := by
          simp [rescheduleAppointment, hf, hge]
        rw [hst]
        exact hinv
      · have hcap : countAvailability σ rreq.new_date rreq.new_time_slot < 5 := by
          omega
        obtain ⟨_, hstore⟩ := rescheduleAppointment_cons rreq now g au σ hf hcap
        intro d s
        rw [countAvailability_countP, hstore, List.countP_map]
        by_cases hds : d = rreq.new_date ∧ s = rreq.new_time_slot
        · obtain ⟨rfl, rfl⟩ := hds
          have h1 : ∀ x ∈ σ.pianificazioni,
              ((fun a => a.data_appuntamento == rreq.new_date
                && a.fascia_oraria == rreq.new_time_slot
                && !(a.stato == "cancellato")) ∘ rescheduleUpdate rreq now) x →
              ((fun x => (x.data_appuntamento == rreq.new_date
                && x.fascia_oraria == rreq.new_time_slot
                && !(x.stato == "cancellato"))
                || reqMatches rreq.appointment_id rreq.matricola x) x) := by
            intro x hx hpx
            by_cases hm : reqMatches rreq.appointment_id rreq.matricola x = true
            · simp [hm]
            · simp [Function.comp, rescheduleUpdate, hm] at hpx
              simp [hpx, hm]
          have hs1 := List.countP_mono_left (l := σ.pianificazioni) h1
          have hs2 := countP_or_le
            (fun x => x.data_appuntamento == rreq.new_date
              && x.fascia_oraria == rreq.new_time_slot
              && !(x.stato == "cancellato"))
            (reqMatches rreq.appointment_id rreq.matricola) σ.pianificazioni
          rw [countAvailability_countP] at hcap
          omega
        · have h2 : ∀ x ∈ σ.pianificazioni,
              ((fun a => a.data_appuntamento == d && a.fascia_oraria == s
                && !(a.stato == "cancellato")) ∘ rescheduleUpdate rreq now) x →
              ((fun x => x.data_appuntamento == d && x.fascia_oraria == s
                && !(x.stato == "cancellato")) x) := by
            intro x hx hpx
            by_cases hm : reqMatches rreq.appointment_id rreq.matricola x = true
            · exfalso
              simp [Function.comp, rescheduleUpdate, hm] at hpx
              exact hds ⟨hpx.1.symm, hpx.2.symm⟩
            · simp [Function.comp, rescheduleUpdate, hm] at hpx
              simp [hpx]
          have hs2 : σ.pianificazioni.countP
              (fun x => x.data_appuntamento == d && x.fascia_oraria == s
                && !(x.stato == "cancellato")) ≤ 5 := by
            rw [← countAvailability_countP]
            exact hinv d s
          have hs1 := List.countP_mono_left (l := σ.pianificazioni) h2
          omega

/-- C1 (amended) witness: a one-row store, confirmed and rescheduled by
id, keeps the capacity invariant. -/
theorem capacity_invariant_preserved_amended_witness :
    slotInvariant (confirmAppointment ⟨some 1, none⟩ 2 true true
      ⟨[mkRow 1 "TEST123456" 8 "09:00-12:00" "programmato"], [], []⟩).store ∧
    slotInvariant (rescheduleAppointment ⟨some 1, none, 12, "13:00-17:00", none⟩
      2 true true
      ⟨[mkRow 1 "TEST123456" 8 "09:00-12:00" "programmato"], [], []⟩).store :=
  capacity_invariant_preserved_amended
    ⟨[mkRow 1 "TEST123456" 8 "09:00-12:00" "programmato"], [], []⟩
    2 true true ⟨some 1, none⟩ ⟨some 1, none, 12, "13:00-17:00", none⟩
    ((slotInvariant_iff _).mpr (by decide)) (by decide) (by decide)
